import Mathlib

/-!
Verification development for the Smart-Home-Assistant repository.

The Python sources under `smart_home/` are shallowly embedded as executable
Lean definitions: device classes (`base_device.py`, `lamp.py`,
`air_conditioner.py`, `television.py`), the device manager
(`device_manager.py`), the LLM command interpreter (`llm_service.py`) and the
Persian language service (`persian_service.py`).

Modelling conventions, used throughout:
* Python in-place mutation is modelled by returning the updated value
  (a device method returns `Device × String`: new device and result message).
* `datetime.now()` is modelled by an explicit `now : Nat` argument;
  `last_updated` is a `Nat` field.
* The Groq LLM client, `json.loads`, and the optional weather/news/time
  collaborators are external to the repository and are passed in as stubbed
  functions (`Collab`), exactly as the spec's §6 external-interface section
  describes them.  An LLM call that raises (network error, timeout) is an
  `Except.error` carrying the exception text.
* `air_conditioner.py` is stored with mojibake (double-encoded) emoji; the
  embedded string literals reproduce the file's characters exactly, e.g. the
  error marker in that file is the two characters "âŒ", not "❌".
-/

namespace SmartHome

/-- Python `str.lower()`.  Modelled by ASCII lowercasing; identical to Python
on the ASCII and Persian-script strings this repository manipulates
(Persian letters have no case). -/
def pyLower (s : String) : String :=
  String.mk (s.toList.map Char.toLower)

/-- Python `str.strip()` with no argument: remove leading and trailing
whitespace. -/
def pyStrip (s : String) : String :=
  String.mk (((s.toList.dropWhile Char.isWhitespace).reverse.dropWhile Char.isWhitespace).reverse)

/-- Test whether `pat` is a prefix of `l` (declared early; used by
`pyReplace`). -/
def startsList (pat l : List Char) : Bool :=
  match pat, l with
  | [], _ => true
  | _ :: _, [] => false
  | p :: ps, c :: cs => p == c && startsList ps cs

/-- Python `str.startswith`. -/
def pyStartsWith (pre s : String) : Bool :=
  startsList pre.toList s.toList

/-- Replacement scan for a nonempty pattern `p :: ps`, left to right,
non-overlapping (the semantics of Python `str.replace`).  The `fuel`
argument, initialised to the list length, makes the recursion structural:
every step consumes at least one character, so fuel never runs out before
the list does. -/
def replaceCore (p : Char) (ps sub : List Char) : Nat → List Char → List Char
  | _, [] => []
  | 0, l => l
  | fuel + 1, c :: cs =>
    if startsList (p :: ps) (c :: cs) then sub ++ replaceCore p ps sub fuel (cs.drop ps.length)
    else c :: replaceCore p ps sub fuel cs

/-- Python `s.replace(pat, sub)` (all occurrences).  This repository never
calls it with an empty pattern, for which the identity is returned. -/
def pyReplace (s pat sub : String) : String :=
  match pat.toList with
  | [] => s
  | p :: ps => String.mk (replaceCore p ps sub.toList s.toList.length s.toList)

/-- Test whether `pat` occurs contiguously inside `l`. -/
def containsList (pat : List Char) : List Char → Bool
  | [] => startsList pat []
  | c :: cs => startsList pat (c :: cs) || containsList pat cs

/-- Python `needle in haystack` substring containment test on strings. -/
def containsSubstr (needle hay : String) : Bool :=
  containsList needle.toList hay.toList

/-- Digit run to a natural number. -/
def digitsToNat (l : List Char) : Nat :=
  l.foldl (fun a c => 10 * a + (c.toNat - '0'.toNat)) 0

/-- Python `int(str)`: optional surrounding whitespace, optional sign, a
nonempty digit run; anything else raises `ValueError` (here: `none`).
Digits are modelled as ASCII - the values this code path receives are the
schema's ASCII numerals (Python would additionally accept other Unicode
decimal digits). -/
def pyInt? (s : String) : Option Int :=
  match (pyStrip s).toList with
  | [] => none
  | '-' :: rest =>
    if !rest.isEmpty && rest.all Char.isDigit then some (-(digitsToNat rest : Int)) else none
  | '+' :: rest =>
    if !rest.isEmpty && rest.all Char.isDigit then some (digitsToNat rest : Int) else none
  | l =>
    if l.all Char.isDigit then some (digitsToNat l : Int) else none

/-- Python truthiness of an optional string argument (`if value:`):
`None` and `""` are falsy. -/
def truthyStr : Option String → Option String
  | none => none
  | some s => if s == "" then none else some s

/-! ## Device model (`base_device.py`, `lamp.py`, `air_conditioner.py`, `television.py`) -/

/-- Type-specific part of a device's `state` dict. -/
inductive DeviceState where
  | lamp (brightness : Int) (color : String)
  | ac (temperature : Int) (mode : String) (fanSpeed : String)
  | tv (channel : Int) (volume : Int) (inputSource : String)
  deriving DecidableEq, Repr

/-- A `SmartHomeDevice` instance: common attributes plus the `power` key and
the type-specific state keys. -/
structure Device where
  name : String
  location : String
  deviceType : String
  power : Bool
  dstate : DeviceState
  lastUpdated : Nat
  isOnline : Bool
  deriving DecidableEq, Repr

/-- `hasattr(device, 'set_brightness')` / `set_color`: true exactly for lamps. -/
def isLampDev (d : Device) : Bool :=
  match d.dstate with | .lamp .. => true | _ => false

/-- `hasattr` test for the AC-specific setters. -/
def isAcDev (d : Device) : Bool :=
  match d.dstate with | .ac .. => true | _ => false

/-- `hasattr` test for the TV-specific setters. -/
def isTvDev (d : Device) : Bool :=
  match d.dstate with | .tv .. => true | _ => false

/-- `SmartHomeDevice.turn_on`. -/
def turnOn (d : Device) (now : Nat) : Device × String :=
  if !d.isOnline then (d, "❌ " ++ d.name ++ " is offline")
  else ({ d with power := true, lastUpdated := now }, "✅ " ++ d.name ++ " turned on")

/-- `SmartHomeDevice.turn_off`. -/
def turnOff (d : Device) (now : Nat) : Device × String :=
  if !d.isOnline then (d, "❌ " ++ d.name ++ " is offline")
  else ({ d with power := false, lastUpdated := now }, "🔌 " ++ d.name ++ " turned off")

/-- `SmartHomeDevice.toggle`. -/
def toggleDev (d : Device) (now : Nat) : Device × String :=
  if d.power then turnOff d now else turnOn d now

/-- `SmartLamp.VALID_COLORS`. -/
def VALID_COLORS : List String :=
  ["white", "red", "blue", "green", "yellow", "purple", "orange"]

/-- `SmartLamp.COLOR_EMOJIS.get(color, "💡")`. -/
def colorEmoji (c : String) : String :=
  match [("white", "⚪"), ("red", "🔴"), ("blue", "🔵"), ("green", "🟢"),
         ("yellow", "🟡"), ("purple", "🟣"), ("orange", "🟠")].lookup c with
  | some e => e
  | none => "💡"

/-- `SmartLamp.set_brightness`: clamp to [0,100]; a clamped value of 0 also
forces power off and (in the source) returns without touching
`last_updated`. -/
def setBrightness (d : Device) (level : Int) (now : Nat) : Device × String :=
  if !d.isOnline then (d, "❌ " ++ d.name ++ " is offline")
  else if !d.power then (d, "❌ " ++ d.name ++ " is off. Turn it on first")
  else
    match d.dstate with
    | .lamp _ color =>
      let lvl := max 0 (min 100 level)
      if lvl = 0 then
        ({ d with dstate := .lamp 0 color, power := false },
         "🌙 " ++ d.name ++ " dimmed to 0% (turned off)")
      else
        ({ d with dstate := .lamp lvl color, lastUpdated := now },
         "💡 " ++ d.name ++ " brightness set to " ++ toString lvl ++ "%")
    | _ => (d, "")

/-- `SmartLamp.set_color`. -/
def setColor (d : Device) (color : String) (now : Nat) : Device × String :=
  if !d.isOnline then (d, "❌ " ++ d.name ++ " is offline")
  else if !d.power then (d, "❌ " ++ d.name ++ " is off. Turn it on first")
  else
    let colorNormalized := pyStrip (pyLower color)
    match d.dstate with
    | .lamp b _ =>
      if VALID_COLORS.contains colorNormalized then
        ({ d with dstate := .lamp b colorNormalized, lastUpdated := now },
         colorEmoji colorNormalized ++ " " ++ d.name ++ " color changed to " ++ colorNormalized)
      else (d, "❌ Invalid color. Available: " ++ String.intercalate ", " VALID_COLORS)
    | _ => (d, "")

/-- `SmartAirConditioner.MIN_TEMPERATURE`. -/
def MIN_TEMPERATURE : Int := 16

/-- `SmartAirConditioner.MAX_TEMPERATURE`. -/
def MAX_TEMPERATURE : Int := 30

/-- `SmartAirConditioner.VALID_MODES`. -/
def VALID_MODES : List String := ["cool", "heat", "fan", "auto", "dry"]

/-- `SmartAirConditioner.VALID_FAN_SPEEDS`. -/
def VALID_FAN_SPEEDS : List String := ["low", "medium", "high", "auto"]

/-- `SmartAirConditioner.MODE_EMOJIS.get(mode, default)`; the source file's
emoji are mojibake and reproduced verbatim. -/
def modeEmoji (m : String) : String :=
  match [("cool", "â„ï¸"), ("heat", "ğŸ”¥"), ("fan", "ğŸ’¨"),
         ("auto", "ğŸ”„"), ("dry", "ğŸ’§")].lookup m with
  | some e => e
  | none => "â„ï¸"

/-- `SmartAirConditioner.set_temperature`: clamp to [16,30]. -/
def setTemperature (d : Device) (t : Int) (now : Nat) : Device × String :=
  if !d.isOnline then (d, "âŒ " ++ d.name ++ " is offline")
  else if !d.power then (d, "âŒ " ++ d.name ++ " is off. Turn it on first")
  else
    match d.dstate with
    | .ac _ m f =>
      let temp := max MIN_TEMPERATURE (min MAX_TEMPERATURE t)
      let emoji := if temp ≤ 20 then "â„ï¸" else if temp ≥ 25 then "ğŸ”¥" else "ğŸŒ¡ï¸"
      ({ d with dstate := .ac temp m f, lastUpdated := now },
       emoji ++ " " ++ d.name ++ " temperature set to " ++ toString temp ++ "Â°C")
    | _ => (d, "")

/-- `SmartAirConditioner.set_mode`. -/
def setMode (d : Device) (mode : String) (now : Nat) : Device × String :=
  if !d.isOnline then (d, "âŒ " ++ d.name ++ " is offline")
  else if !d.power then (d, "âŒ " ++ d.name ++ " is off. Turn it on first")
  else
    let modeNormalized := pyStrip (pyLower mode)
    match d.dstate with
    | .ac t _ f =>
      if VALID_MODES.contains modeNormalized then
        ({ d with dstate := .ac t modeNormalized f, lastUpdated := now },
         modeEmoji modeNormalized ++ " " ++ d.name ++ " mode set to " ++ modeNormalized)
      else (d, "âŒ Invalid mode. Available: " ++ String.intercalate ", " VALID_MODES)
    | _ => (d, "")

/-- `SmartAirConditioner.set_fan_speed`. -/
def setFanSpeed (d : Device) (speed : String) (now : Nat) : Device × String :=
  if !d.isOnline then (d, "âŒ " ++ d.name ++ " is offline")
  else if !d.power then (d, "âŒ " ++ d.name ++ " is off. Turn it on first")
  else
    let speedNormalized := pyStrip (pyLower speed)
    match d.dstate with
    | .ac t m _ =>
      if VALID_FAN_SPEEDS.contains speedNormalized then
        ({ d with dstate := .ac t m speedNormalized, lastUpdated := now },
         "ğŸ’¨ " ++ d.name ++ " fan speed set to " ++ speedNormalized)
      else (d, "âŒ Invalid fan speed. Available: " ++ String.intercalate ", " VALID_FAN_SPEEDS)
    | _ => (d, "")

/-- `SmartTelevision` bounds. -/
def MIN_CHANNEL : Int := 1

/-- `SmartTelevision.MAX_CHANNEL`. -/
def MAX_CHANNEL : Int := 999

/-- `SmartTelevision.MIN_VOLUME`. -/
def MIN_VOLUME : Int := 0

/-- `SmartTelevision.MAX_VOLUME`. -/
def MAX_VOLUME : Int := 100

/-- `SmartTelevision.VALID_INPUTS`. -/
def VALID_INPUTS : List String :=
  ["hdmi1", "hdmi2", "hdmi3", "usb", "cable", "antenna", "netflix", "youtube"]

/-- `SmartTelevision.INPUT_EMOJIS.get(input, "📺")`. -/
def inputEmoji (i : String) : String :=
  match [("hdmi1", "🔌"), ("hdmi2", "🔌"), ("hdmi3", "🔌"), ("usb", "🔌"),
         ("cable", "📡"), ("antenna", "📡"), ("netflix", "🎬"), ("youtube", "📹")].lookup i with
  | some e => e
  | none => "📺"

/-- `SmartTelevision.set_channel`: clamp to [1,999]. -/
def setChannel (d : Device) (ch : Int) (now : Nat) : Device × String :=
  if !d.isOnline then (d, "❌ " ++ d.name ++ " is offline")
  else if !d.power then (d, "❌ " ++ d.name ++ " is off. Turn it on first")
  else
    match d.dstate with
    | .tv _ vol inp =>
      let channel := max MIN_CHANNEL (min MAX_CHANNEL ch)
      ({ d with dstate := .tv channel vol inp, lastUpdated := now },
       "📺 " ++ d.name ++ " channel changed to " ++ toString channel)
    | _ => (d, "")

/-- `SmartTelevision.set_volume`: clamp to [0,100]. -/
def setVolume (d : Device) (v : Int) (now : Nat) : Device × String :=
  if !d.isOnline then (d, "❌ " ++ d.name ++ " is offline")
  else if !d.power then (d, "❌ " ++ d.name ++ " is off. Turn it on first")
  else
    match d.dstate with
    | .tv ch _ inp =>
      let volume := max MIN_VOLUME (min MAX_VOLUME v)
      let emoji := if volume = 0 then "🔇" else if volume ≤ 30 then "🔈"
                   else if volume ≤ 70 then "🔉" else "🔊"
      ({ d with dstate := .tv ch volume inp, lastUpdated := now },
       emoji ++ " " ++ d.name ++ " volume set to " ++ toString volume)
    | _ => (d, "")

/-- `SmartTelevision.set_input`. -/
def setInputSource (d : Device) (src : String) (now : Nat) : Device × String :=
  if !d.isOnline then (d, "❌ " ++ d.name ++ " is offline")
  else if !d.power then (d, "❌ " ++ d.name ++ " is off. Turn it on first")
  else
    let inputNormalized := pyStrip (pyLower src)
    match d.dstate with
    | .tv ch vol _ =>
      if VALID_INPUTS.contains inputNormalized then
        ({ d with dstate := .tv ch vol inputNormalized, lastUpdated := now },
         inputEmoji inputNormalized ++ " " ++ d.name ++ " input changed to " ++ inputNormalized)
      else (d, "❌ Invalid input. Available: " ++ String.intercalate ", " VALID_INPUTS)
    | _ => (d, "")

/-- `SmartLamp.get_status`. -/
def lampStatus (d : Device) (b : Int) (c : String) : String :=
  if !d.isOnline then d.name ++ " (" ++ d.location ++ "): OFFLINE 🔴"
  else if d.power then
    d.name ++ " (" ++ d.location ++ "): ON 🟢 - " ++ toString b ++ "% brightness "
      ++ colorEmoji c ++ " " ++ c ++ " color"
  else d.name ++ " (" ++ d.location ++ "): OFF 🔴"

/-- `SmartAirConditioner.get_status` (mojibake emoji verbatim). -/
def acStatus (d : Device) (t : Int) (m f : String) : String :=
  if !d.isOnline then d.name ++ " (" ++ d.location ++ "): OFFLINE ğŸ”´"
  else if d.power then
    d.name ++ " (" ++ d.location ++ "): ON ğŸŸ¢ - " ++ toString t ++ "Â°C ğŸŒ¡ï¸, "
      ++ m ++ " mode " ++ modeEmoji m ++ ", " ++ f ++ " fan ğŸ’¨"
  else d.name ++ " (" ++ d.location ++ "): OFF ğŸ”´"

/-- `SmartTelevision.get_status`. -/
def tvStatus (d : Device) (ch vol : Int) (inp : String) : String :=
  if !d.isOnline then d.name ++ " (" ++ d.location ++ "): OFFLINE 🔴"
  else if d.power then
    let volumeEmoji := if vol = 0 then "🔇" else if vol ≤ 30 then "🔈"
                       else if vol ≤ 70 then "🔉" else "🔊"
    d.name ++ " (" ++ d.location ++ "): ON 🟢 - Channel " ++ toString ch ++ " 📺, Volume "
      ++ toString vol ++ " " ++ volumeEmoji ++ ", Input: " ++ inp ++ " " ++ inputEmoji inp
  else d.name ++ " (" ++ d.location ++ "): OFF 🔴"

/-- `get_status` dispatched on the device's concrete class. -/
def deviceStatus (d : Device) : String :=
  match d.dstate with
  | .lamp b c => lampStatus d b c
  | .ac t m f => acStatus d t m f
  | .tv ch vol inp => tvStatus d ch vol inp

/-! ## Configuration (`app_config.py` defaults) and device registry
(`device_manager.py`).

`my_config` is the module-level `Config()` dataclass instance; its
device-location lists and default city below are the dataclass defaults
(the API keys, read from the environment, play no role in the embedded
logic). -/

/-- `my_config.lamps`. -/
def configLamps : List String := ["Kitchen", "Bathroom", "Room 1", "Room 2"]

/-- `my_config.acs`. -/
def configAcs : List String := ["Room 1", "Kitchen"]

/-- `my_config.tvs`. -/
def configTvs : List String := ["Living Room"]

/-- `my_config.default_city` (environment default). -/
def defaultCity : String := "Tehran"

/-- The manager's `self.devices` dict: insertion-ordered id/device pairs. -/
abbrev Registry := List (String × Device)

/-- Device-id formula `location.lower().replace(' ', '_') + '_' + device_type`
used both by `SmartHomeDevice.__init__` and by `DeviceManager`. -/
def mkDeviceId (location deviceType : String) : String :=
  pyReplace (pyLower location) " " "_" ++ "_" ++ deviceType

/-- `SmartLamp.__init__` with default brightness/color. -/
def mkLamp (location : String) : Device :=
  { name := location ++ " Lamp", location := location, deviceType := "lamp",
    power := false, dstate := .lamp 100 "white", lastUpdated := 0, isOnline := true }

/-- `SmartAirConditioner.__init__` with defaults. -/
def mkAc (location : String) : Device :=
  { name := location ++ " AC", location := location, deviceType := "ac",
    power := false, dstate := .ac 22 "cool" "medium", lastUpdated := 0, isOnline := true }

/-- `SmartTelevision.__init__` with defaults. -/
def mkTv (location : String) : Device :=
  { name := location ++ " TV", location := location, deviceType := "tv",
    power := false, dstate := .tv 1 50 "hdmi1", lastUpdated := 0, isOnline := true }

/-- `DeviceManager._create_devices`: lamps, then ACs, then TVs, in configured
order (`datetime.now()` at construction is modelled as time 0). -/
def initialRegistry : Registry :=
  configLamps.map (fun l => (mkDeviceId l "lamp", mkLamp l))
    ++ configAcs.map (fun l => (mkDeviceId l "ac", mkAc l))
    ++ configTvs.map (fun l => (mkDeviceId l "tv", mkTv l))

/-- Dictionary lookup `self.devices.get(device_id)`. -/
def lookupDevice (reg : Registry) (did : String) : Option Device :=
  (reg.find? (fun p => p.1 == did)).map (·.2)

/-- In-place mutation of the device stored under `did`. -/
def updateDevice (reg : Registry) (did : String) (d : Device) : Registry :=
  reg.map (fun p => if p.1 == did then (p.1, d) else p)

/-- `DeviceManager._execute_device_action`: dispatch on the action name with
`hasattr` capability probing; `int(value)` conversion failures are caught by
the surrounding `except (ValueError, TypeError)` clause. -/
def executeDeviceAction (d : Device) (action : String) (value : Option String) (now : Nat) :
    Device × String :=
  if action == "on" then turnOn d now
  else if action == "off" then turnOff d now
  else if action == "toggle" then toggleDev d now
  else if action == "brightness" && isLampDev d then
    match truthyStr value with
    | some v =>
      match pyInt? v with
      | some n => setBrightness d n now
      | none => (d, "❌ Invalid value '" ++ v ++ "' for action '" ++ action ++ "'")
    | none => (d, "❌ Please specify brightness level (0-100)")
  else if action == "color" && isLampDev d then
    match truthyStr value with
    | some v => setColor d v now
    | none => (d, "❌ Please specify a color")
  else if action == "temperature" && isAcDev d then
    match truthyStr value with
    | some v =>
      match pyInt? v with
      | some n => setTemperature d n now
      | none => (d, "❌ Invalid value '" ++ v ++ "' for action '" ++ action ++ "'")
    | none => (d, "❌ Please specify temperature (16-30°C)")
  else if action == "mode" && isAcDev d then
    match truthyStr value with
    | some v => setMode d v now
    | none => (d, "❌ Please specify mode")
  else if action == "fan_speed" && isAcDev d then
    match truthyStr value with
    | some v => setFanSpeed d v now
    | none => (d, "❌ Please specify fan speed")
  else if action == "channel" && isTvDev d then
    match truthyStr value with
    | some v =>
      match pyInt? v with
      | some n => setChannel d n now
      | none => (d, "❌ Invalid value '" ++ v ++ "' for action '" ++ action ++ "'")
    | none => (d, "❌ Please specify channel number")
  else if action == "volume" && isTvDev d then
    match truthyStr value with
    | some v =>
      match pyInt? v with
      | some n => setVolume d n now
      | none => (d, "❌ Invalid value '" ++ v ++ "' for action '" ++ action ++ "'")
    | none => (d, "❌ Please specify volume level")
  else if action == "input" && isTvDev d then
    match truthyStr value with
    | some v => setInputSource d v now
    | none => (d, "❌ Please specify input")
  else (d, "❌ Action '" ++ action ++ "' not supported for " ++ d.deviceType)

/-- `DeviceManager._control_all_lamps`: devices whose id contains "lamp",
each mutated in place; non-error result lines aggregated. -/
def controlAllLamps (reg : Registry) (action : String) (value : Option String) (now : Nat) :
    String × Registry :=
  let isLampId := fun (p : String × Device) => containsSubstr "lamp" p.1
  let lampDevices := reg.filter isLampId
  if lampDevices.isEmpty then ("❌ No lamps found", reg)
  else
    let results := lampDevices.filterMap (fun p =>
      let r := (executeDeviceAction p.2 action value now).2
      if pyStartsWith "❌" r then none else some ("  • " ++ r))
    let reg' := reg.map (fun p =>
      if isLampId p then (p.1, (executeDeviceAction p.2 action value now).1) else p)
    (if !results.isEmpty then "💡 All lamps:\n" ++ String.intercalate "\n" results
     else "❌ No lamps could be controlled", reg')

/-- `DeviceManager._control_all_devices`: only "off" is permitted; powers off
every device in the registry. -/
def controlAllDevices (reg : Registry) (action : String) (now : Nat) : String × Registry :=
  if action != "off" then ("❌ Only 'off' action is supported for all devices", reg)
  else
    let results := reg.filterMap (fun p =>
      let r := (turnOff p.2 now).2
      if pyStartsWith "❌" r then none else some ("  • " ++ r))
    ("🔌 All devices turned off:\n" ++ String.intercalate "\n" results,
     reg.map (fun p => (p.1, (turnOff p.2 now).1)))

/-- `DeviceManager.control_device`. -/
def controlDevice (reg : Registry) (deviceType action : String)
    (location value : Option String) (now : Nat) : String × Registry :=
  if deviceType == "all_lamps" then controlAllLamps reg action value now
  else if deviceType == "all_devices" then controlAllDevices reg action now
  else
    match truthyStr location with
    | none => ("❌ Please specify the location for the device", reg)
    | some loc =>
      let did := mkDeviceId loc deviceType
      match lookupDevice reg did with
      | none => ("❌ Device not found: " ++ deviceType ++ " in " ++ loc, reg)
      | some d =>
        let (d', msg) := executeDeviceAction d action value now
        (msg, updateDevice reg did d')

/-- `DeviceManager.get_status`. -/
def getStatus (reg : Registry) (deviceName : String) : String :=
  if deviceName == "all" then
    let group := fun (header : String) (ds : List (String × Device)) =>
      if ds.isEmpty then ([] : List String)
      else header :: ds.map (fun p => "  • " ++ deviceStatus p.2)
    let lines := "📊 Smart Home Status:"
      :: (group "\n💡 Lamps:" (reg.filter (fun p => containsSubstr "lamp" p.1))
        ++ group "\n❄️ Air Conditioners:" (reg.filter (fun p => containsSubstr "ac" p.1))
        ++ group "\n📺 Televisions:" (reg.filter (fun p => containsSubstr "tv" p.1)))
    String.intercalate "\n" lines
  else
    let nm := pyLower deviceName
    match reg.find? (fun p => containsSubstr nm p.1 || containsSubstr nm (pyLower p.2.name)) with
    | some p => "📊 " ++ deviceStatus p.2
    | none => "❌ Device '" ++ deviceName ++ "' not found"

/-! ## LLM command interpreter (`llm_service.py`) -/

/-- A structured function call carried by an LLM response
(`message.function_call`): name and raw JSON arguments string. -/
structure FunctionCall where
  name : String
  argumentsJson : String
  deriving DecidableEq, Repr

/-- One chat message sent to the LLM API. -/
structure ChatMsg where
  role : String
  content : String
  funcName : Option String := none
  functionCall : Option FunctionCall := none
  deriving DecidableEq, Repr

/-- An LLM chat-completion response message (`response.choices[0].message`):
optional text content and optional structured function call. -/
structure LLMResponse where
  content : Option String
  functionCall : Option FunctionCall
  deriving DecidableEq, Repr

/-- One entry of `self.conversation_history`. -/
structure Turn where
  user : String
  assistant : String
  deriving DecidableEq, Repr

/-- Parsed JSON argument object, as a key/value association list.  The
`json.loads` collaborator below produces these; argument values are modelled
as strings (the enumerated string domains of the declared function schema). -/
abbrev Args := List (String × String)

/-- Python `args.get(key)`. -/
def getArg (args : Args) (k : String) : Option String :=
  (args.find? (fun p => p.1 == k)).map (·.2)

/-- External collaborators of the interpreter, per spec §6: the LLM client
(call number ↦ messages ↦ response or raised-exception text), the stdlib
JSON parser, the optional weather and news services, and the time service's
formatted current time. -/
structure Collab where
  llm : Nat → List ChatMsg → Except String LLMResponse
  jsonParse : String → Except String Args
  weather : Option (String → String) := none
  news : Option (String → String) := none
  timeNow : String := ""

/-- Keyword-argument binding for `device_manager.control_device(**args)`:
`device_type` and `action` are required, `location` and `value` optional;
any other key raises `TypeError` (caught by `_execute_function`). -/
def controlKwargs (args : Args) : Except String (String × String × Option String × Option String) :=
  if !(args.all (fun p =>
      p.1 == "device_type" || p.1 == "action" || p.1 == "location" || p.1 == "value")) then
    .error "control_device() got an unexpected keyword argument"
  else
    match getArg args "device_type", getArg args "action" with
    | some dt, some act => .ok (dt, act, getArg args "location", getArg args "value")
    | _, _ => .error "control_device() missing a required argument"

/-- `LLMService._execute_function`: dispatch on the function name; its own
`try`/`except` turns any failure into an error string, never an exception. -/
def executeFunction (co : Collab) (reg : Registry) (fname : String) (args : Args) (now : Nat) :
    String × Registry :=
  if fname == "control_device" then
    match controlKwargs args with
    | .error e => ("❌ Error executing control_device: " ++ e, reg)
    | .ok (dt, act, loc, v) => controlDevice reg dt act loc v now
  else if fname == "get_weather" then
    (match co.weather with
     | some w => w ((getArg args "city").getD defaultCity)
     | none => "❌ Weather service not available", reg)
  else if fname == "get_news" then
    (match co.news with
     | some n => n ((getArg args "category").getD "technology")
     | none => "❌ News service not available", reg)
  else if fname == "get_time" then (co.timeNow, reg)
  else if fname == "get_device_status" then
    (getStatus reg ((getArg args "device").getD "all"), reg)
  else ("❌ Unknown function: " ++ fname, reg)

/-- Strip the literal `pat` from the front of `l`, or fail. -/
def stripPre (pat l : List Char) : Option (List Char) :=
  match pat, l with
  | [], rest => some rest
  | _ :: _, [] => none
  | p :: ps, c :: cs => if c == p then stripPre ps cs else none

/-- One anchored attempt of the regex
`<function=([^{]+)({[^}]+})</function>` at the head of `l`: the marker
literal, a nonempty run without an opening brace (group 1), a brace-delimited
nonempty run without a closing brace (group 2), then the closing literal. -/
def tryCallAt (l : List Char) : Option (String × String) :=
  match stripPre "<function=".toList l with
  | none => none
  | some rest =>
    let nameRun := rest.takeWhile (fun c => c != '\x7b')
    if nameRun.isEmpty then none
    else
      match rest.drop nameRun.length with
      | ob :: afterBrace =>
        if ob == '\x7b' then
          let body := afterBrace.takeWhile (fun c => c != '\x7d')
          if body.isEmpty then none
          else
            match afterBrace.drop body.length with
            | cb :: afterClose =>
              if cb == '\x7d' then
                match stripPre "</function>".toList afterClose with
                | some _ => some (String.mk nameRun, String.mk ('\x7b' :: (body ++ ['\x7d'])))
                | none => none
              else none
            | [] => none
        else none
      | [] => none

/-- Leftmost match of the inline function-call pattern
(`re.findall(...)` followed by `matches[0]`). -/
def findCall : List Char → Option (String × String)
  | [] => none
  | c :: cs =>
    match tryCallAt (c :: cs) with
    | some r => some r
    | none => findCall cs

/-- `LLMService._parse_and_execute_function_from_text` (the Groq workaround):
extract the first inline call, strip the name, JSON-parse the argument blob
(parse failure yields the graceful message), execute, and synthesize the
reply from the raw function result.  Returns (reply, registry, executed
function log). -/
def parseAndExecuteFromText (co : Collab) (reg : Registry) (text : String) (now : Nat) :
    String × Registry × List (String × Args) :=
  match findCall text.toList with
  | none => ("I understood your request but couldn't execute it properly.", reg, [])
  | some (rawName, blob) =>
    let fname := pyStrip rawName
    match co.jsonParse blob with
    | .error _ =>
      ("I understood your request but couldn't parse the parameters properly.", reg, [])
    | .ok args =>
      let (result, reg') := executeFunction co reg fname args now
      let reply :=
        if fname == "control_device" then
          if containsSubstr "turned on" (pyLower result) then "✅ " ++ result
          else if containsSubstr "turned off" (pyLower result) then "🔌 " ++ result
          else if containsSubstr "set to" (pyLower result) then "⚙️ " ++ result
          else result
        else result
      (reply, reg', [(fname, args)])

/-- `LLMService._create_system_prompt`, rendered with the configured device
locations (the file's trailing spaces are preserved). -/
def systemPrompt : String :=
  String.intercalate "\n" [
    "You are a helpful smart home assistant that controls devices and provides information.",
    "",
    "AVAILABLE DEVICES:",
    "💡 Lamps in: " ++ String.intercalate ", " configLamps,
    "❄️ ACs in: " ++ String.intercalate ", " configAcs ++ "  ",
    "📺 TVs in: " ++ String.intercalate ", " configTvs,
    "",
    "DEVICE CAPABILITIES:",
    "- Lamps: turn on/off, set brightness (0-100%), change colors (white, red, blue, green, yellow, purple, orange)",
    "- ACs: turn on/off, set temperature (16-30°C), change modes (cool, heat, fan, auto, dry), set fan speed (low, medium, high, auto)",
    "- TVs: turn on/off, change channels (1-999), set volume (0-100%), change inputs (hdmi1, hdmi2, hdmi3, usb, cable, antenna, netflix, youtube)",
    "",
    "IMPORTANT INSTRUCTIONS:",
    "- ALWAYS provide a clear, complete response",
    "- Be specific about what action was taken",
    "- Use emojis to make responses friendly",
    "- If controlling devices, confirm the action taken",
    "- Keep responses conversational but informative",
    "- NEVER give partial or incomplete responses",
    "",
    "CONVERSATION AWARENESS:",
    "- You can see the conversation history above",
    "- If the user's current message seems incomplete or related to previous messages, use context to understand what they want",
    "- For example:",
    "  * If you asked \"Which city?\" and user says \"Tehran\", get weather for Tehran",
    "  * If you asked \"Which room?\" and user says \"kitchen\", control the kitchen device",
    "  * If user says just \"22\" or \"22 degrees\" after temperature question, set temperature to 22",
    "  * If user says just a city name after weather question, get weather for that city",
    "  * If user says just a room name after device question, control device in that room",
    "  * If user says \"yes\" check your previous conversation and check what user was referring to",
    "",
    "- Look at the conversation history to understand incomplete responses",
    "- If user gives incomplete info and there's no context, ask for clarification naturally",
    "- If user asks for news show it completely ",
    "",
    "AVAILABLE FUNCTIONS:",
    "- control_device: Control any smart home device",
    "- get_weather: Get current weather information",
    "- get_news: Get latest news headlines",
    "- get_time: Get current date and time",
    "- get_device_status: Check device status",
    "",
    "RESPONSE STYLE:",
    "- Be conversational and helpful",
    "- Use appropriate emojis",
    "- Provide clear confirmations",
    "- If user asks to adjust after weather, make smart suggestions",
    "- ALWAYS complete your thoughts and responses",
    "",
    "Always use the appropriate function for the user's request."]

/-- Python `history[-6:]` (and, with `n := 20`, `history[-20:]`): the last
`n` elements. -/
def lastN (n : Nat) (l : List Turn) : List Turn :=
  l.drop (l.length - n)

/-- Message-list construction in `process_command`: the system prompt, each
of the LAST SIX history entries expanded to a user/assistant message pair,
then the current command. -/
def buildMessages (hist : List Turn) (cmd : String) : List ChatMsg :=
  { role := "system", content := systemPrompt }
    :: ((lastN 6 hist).flatMap (fun t =>
          [{ role := "user", content := t.user }, { role := "assistant", content := t.assistant }])
      ++ [{ role := "user", content := cmd }])

/-- History trimming: `if len(history) > 20: history = history[-20:]`. -/
def trimHistory (l : List Turn) : List Turn :=
  if l.length > 20 then l.drop (l.length - 20) else l

/-- Response validation at the end of `process_command`: an empty reply and a
whitespace-only reply are each replaced by a fixed fallback sentence. -/
def validateResponse (s : String) : String :=
  if s == "" then "I processed your request, but didn't generate a response. Please try again."
  else if pyStrip s == "" then "I received your command but my response was empty. Please try again."
  else s

/-- Outcome of the `try`-block body of `process_command` before the
history-append: the final response or the text of a raised exception, plus
the (possibly mutated) registry, the number of LLM chat calls issued, and the
log of executed functions. -/
structure InnerResult where
  res : Except String String
  registry : Registry
  llmCalls : Nat
  executions : List (String × Args)
  deriving Repr

/-- The response-handling cascade of `LLMService.process_command`:
(a) inline `<function=` marker in the text content → text-parse workaround,
no follow-up call; (b) structured function call → execute, then one follow-up
LLM call; (c) direct reply, re-routed through (a) if it contains the marker.
In branches (b) and (c) a `None` content reaching
`len(final_response)` raises `TypeError`. -/
def processInner (co : Collab) (reg : Registry) (hist : List Turn) (cmd : String) (now : Nat) :
    InnerResult :=
  let messages := buildMessages hist cmd
  match co.llm 0 messages with
  | .error e => ⟨.error e, reg, 1, []⟩
  | .ok msg =>
    if (match msg.content with | some c => c != "" && containsSubstr "<function=" c | none => false) then
      let (reply, reg', log) := parseAndExecuteFromText co reg (msg.content.getD "") now
      ⟨.ok reply, reg', 1, log⟩
    else
      match msg.functionCall with
      | some fc =>
        match co.jsonParse fc.argumentsJson with
        | .error e => ⟨.error e, reg, 1, []⟩
        | .ok args =>
          let (result, reg') := executeFunction co reg fc.name args now
          let followMsgs := messages ++
            [{ role := "assistant", content := "", functionCall := some fc },
             { role := "function", content := result, funcName := some fc.name }]
          match co.llm 1 followMsgs with
          | .error e => ⟨.error e, reg', 2, [(fc.name, args)]⟩
          | .ok follow =>
            match follow.content with
            | none => ⟨.error "object of type 'NoneType' has no len()", reg', 2, [(fc.name, args)]⟩
            | some r => ⟨.ok r, reg', 2, [(fc.name, args)]⟩
      | none =>
        match msg.content with
        | none => ⟨.error "object of type 'NoneType' has no len()", reg, 1, []⟩
        | some c =>
          if c != "" && containsSubstr "<function=" c then
            let (reply, reg', log) := parseAndExecuteFromText co reg c now
            ⟨.ok reply, reg', 1, log⟩
          else ⟨.ok c, reg, 1, []⟩

/-- Full observable outcome of one `process_command` call. -/
structure ProcessResult where
  reply : String
  registry : Registry
  history : List Turn
  llmCalls : Nat
  executions : List (String × Args)
  deriving Repr

/-- `LLMService.process_command`: run the cascade; on success validate the
reply, append the turn to the conversation history and trim it to the last
20 entries; on a raised exception return the error-prefixed string and leave
the history untouched. -/
def process (co : Collab) (reg : Registry) (hist : List Turn) (cmd : String) (now : Nat) :
    ProcessResult :=
  let r := processInner co reg hist cmd now
  match r.res with
  | .ok raw =>
    let final := validateResponse raw
    ⟨final, r.registry, trimHistory (hist ++ [⟨cmd, final⟩]), r.llmCalls, r.executions⟩
  | .error e =>
    ⟨"❌ Error processing command: " ++ e, r.registry, hist, r.llmCalls, r.executions⟩

/-- Sequential `process_command` calls sharing one service instance
(registry and conversation history threaded through). -/
def processSeq (co : Collab) (reg : Registry) (hist : List Turn) :
    List String → Registry × List Turn
  | [] => (reg, hist)
  | c :: cs =>
    let r := process co reg hist c 0
    processSeq co r.registry r.history cs

/-- A stubbed LLM client that always answers with the direct text reply
"ok" (no function call), with a JSON stub that is never consulted. -/
def stubOkCollab : Collab :=
  { llm := fun _ _ => .ok { content := some "ok", functionCall := none },
    jsonParse := fun _ => .error "unused" }

/-! ## Persian language service (`persian_service.py`) -/

/-- The three Unicode ranges of `self.persian_ranges`. -/
def persianRanges : List (Nat × Nat) :=
  [(0x0600, 0x06FF), (0xFB50, 0xFDFF), (0xFE70, 0xFEFF)]

/-- Membership of a character in any of the Persian script ranges (the inner
`for start, end in ...: if start <= code <= end: ...; break` loop). -/
def inPersianRanges (c : Char) : Bool :=
  persianRanges.any (fun p => p.1 ≤ c.toNat && c.toNat ≤ p.2)

/-- Python `str.isalpha` on one character, modelled for the scripts this
repository handles: ASCII letters plus the Arabic-script letter ranges
(letters of the Arabic block, and the Arabic presentation forms).  The
Arabic-Indic digits (U+0660-U+0669, U+06F0-U+06F9), Arabic punctuation and
combining marks are not alphabetic, exactly as in Python. -/
def pyIsAlpha (c : Char) : Bool :=
  let n := c.toNat
  (0x41 ≤ n && n ≤ 0x5A) || (0x61 ≤ n && n ≤ 0x7A)
    || (0x620 ≤ n && n ≤ 0x64A) || (0x66E ≤ n && n ≤ 0x66F)
    || (0x671 ≤ n && n ≤ 0x6D3) || n == 0x6D5
    || (0x6E5 ≤ n && n ≤ 0x6E6) || (0x6EE ≤ n && n ≤ 0x6EF)
    || (0x6FA ≤ n && n ≤ 0x6FC) || n == 0x6FF
    || (0xFB50 ≤ n && n ≤ 0xFDFF) || (0xFE70 ≤ n && n ≤ 0xFEFF)

/-- `self.persian_words`. -/
def persianWords : List String :=
  ["روشن", "خاموش", "چراغ", "تلویزیون", "کولر", "هوا", "خبر", "وقت", "ساعت",
   "دما", "درجه", "کانال", "صدا", "رنگ", "صبح", "شب", "آشپزخانه", "حمام",
   "اتاق", "پذیرایی", "سلام", "چطور", "چی", "چه", "کن", "بده", "همه", "تمام"]

/-- The character-counting loop of `is_persian`: accumulator is
(persian_char_count, total_chars). -/
def persianCounts (l : List Char) : Nat × Nat :=
  l.foldl
    (fun acc c =>
      if pyIsAlpha c then
        (acc.1 + (if inPersianRanges c then 1 else 0), acc.2 + 1)
      else acc)
    (0, 0)

/-- `PersianService.is_persian`.  The float comparison
`persian_char_count / total_chars > 0.3` is modelled exactly as the rational
inequality `10 * persian > 3 * total`. -/
def isPersian (text : String) : Bool :=
  if text == "" || pyStrip text == "" then false
  else
    let counts := persianCounts text.toList
    if counts.2 > 0 && 10 * counts.1 > 3 * counts.2 then true
    else persianWords.any (fun w => containsSubstr w (pyLower text))

/-- Language-detector contract, written from the spec's words (§4.1): count
alphabetic characters, classify as Persian when the Persian-script ones
exceed 30% of them, or when the lowercased text contains one of the fixed
keywords; empty/whitespace-only input is not Persian. -/
def isPersianSpec (text : String) : Bool :=
  if pyStrip text == "" then false
  else
    let alphaChars := text.toList.filter pyIsAlpha
    let persianChars := alphaChars.filter inPersianRanges
    (10 * persianChars.length > 3 * alphaChars.length)
      || persianWords.any (fun w => containsSubstr w (pyLower text))

/-- `self.quick_patterns`, in dictionary insertion order. -/
def quickPatterns : List (String × String) :=
  [("چراغ آشپزخانه را روشن کن", "turn on the kitchen lamp"),
   ("چراغ حمام را روشن کن", "turn on the bathroom lamp"),
   ("چراغ اتاق یک را روشن کن", "turn on the room 1 lamp"),
   ("چراغ اتاق دو را روشن کن", "turn on the room 2 lamp"),
   ("چراغ آشپزخانه را خاموش کن", "turn off the kitchen lamp"),
   ("چراغ حمام را خاموش کن", "turn off the bathroom lamp"),
   ("همه چراغ‌ها را روشن کن", "turn on all lamps"),
   ("همه چراغ‌ها را خاموش کن", "turn off all lamps"),
   ("کولر را روشن کن", "turn on the AC"),
   ("کولر اتاق یک را روشن کن", "turn on the room 1 AC"),
   ("کولر آشپزخانه را روشن کن", "turn on the kitchen AC"),
   ("کولر را خاموش کن", "turn off the AC"),
   ("تلویزیون را روشن کن", "turn on the TV"),
   ("تلویزیون را خاموش کن", "turn off the TV"),
   ("تی وی را روشن کن", "turn on the TV"),
   ("تی وی را خاموش کن", "turn off the TV"),
   ("همه دستگاه‌ها را خاموش کن", "turn off all devices"),
   ("تمام دستگاه‌ها را خاموش کن", "turn off all devices"),
   ("وضعیت دستگاه‌ها چیه", "what is the status of all devices"),
   ("وضعیت دستگاه‌ها را نشان بده", "show device status"),
   ("دستگاه‌ها چطورن", "how are the devices"),
   ("هوا چطوره", "what's the weather"),
   ("هوای تهران چطوره", "what's the weather in Tehran"),
   ("آب و هوا چطوره", "what's the weather"),
   ("آب و هوای تهران", "weather in Tehran"),
   ("ساعت چنده", "what time is it"),
   ("وقت چیه", "what time is it"),
   ("زمان چقدره", "what time is it"),
   ("الان ساعت چنده", "what time is it now")]

/-- `self.persian_digits` paired with `self.english_digits`. -/
def persianDigitPairs : List (Char × Char) :=
  [('۰', '0'), ('۱', '1'), ('۲', '2'), ('۳', '3'), ('۴', '4'),
   ('۵', '5'), ('۶', '6'), ('۷', '7'), ('۸', '8'), ('۹', '9')]

/-- The Persian-to-ASCII digit replacement loop of `translate_to_english`. -/
def convertDigits (s : String) : String :=
  persianDigitPairs.foldl
    (fun acc p => pyReplace acc (String.mk [p.1]) (String.mk [p.2])) s

/-- Character class `\d` of Python `re` (Unicode decimal digits; here ASCII
plus the Arabic-script digit blocks, the only ones this text can carry). -/
def reIsDigit (c : Char) : Bool :=
  c.isDigit || (0x660 ≤ c.toNat && c.toNat ≤ 0x669) || (0x6F0 ≤ c.toNat && c.toNat ≤ 0x6F9)

/-- Items of the regular expressions used by the normalizer: a literal
character, a greedy nonempty digit group `(\d+)`, or a greedy nonempty
any-character group `(.+)`. -/
inductive RItem where
  | lit (c : Char)
  | digitsGroup
  | anyGroup
  deriving DecidableEq, Repr

/-- Anchored backtracking matcher for a sequence of regex items, with the
standard leftmost-greedy semantics: returns the captured groups and the
remaining unconsumed characters.  Greedy groups try the longest candidate
first and backtrack by shrinking. -/
def matchRE : List RItem → List Char → Option (List String × List Char)
  | [], s => some ([], s)
  | .lit _ :: _, [] => none
  | .lit c :: ps, d :: s => if d == c then matchRE ps s else none
  | .digitsGroup :: ps, s =>
    let run := s.takeWhile reIsDigit
    (List.range run.length).findSome? (fun i =>
      let k := run.length - i
      (matchRE ps (s.drop k)).map (fun r => (String.mk (run.take k) :: r.1, r.2)))
  | .anyGroup :: ps, s =>
    (List.range s.length).findSome? (fun i =>
      let k := s.length - i
      let grp := s.take k
      if grp.all (fun c => c != '\n') then
        (matchRE ps (s.drop k)).map (fun r => (String.mk grp :: r.1, r.2))
      else none)
  termination_by ps _ => ps.length

/-- `re.search(pattern, s) is not None`: try an anchored match at every
position, left to right. -/
def searchRE (p : List RItem) : List Char → Bool
  | [] => (matchRE p []).isSome
  | c :: cs => (matchRE p (c :: cs)).isSome || searchRE p cs

/-- `re.sub(pattern, template, s)`: replace every non-overlapping match,
scanning left to right, resuming after each match. -/
def subRE (p : List RItem) (tmpl : List String → String) (s : List Char) : String :=
  match s with
  | [] => ""
  | c :: cs =>
    match matchRE p (c :: cs) with
    | some (caps, rest) =>
      if h : rest.length < cs.length + 1 then tmpl caps ++ subRE p tmpl rest
      else String.mk [c] ++ subRE p tmpl cs
    | none => String.mk [c] ++ subRE p tmpl cs
  termination_by s.length
  decreasing_by
    all_goals simp_all

/-- Literal regex fragment. -/
def litOf (s : String) : List RItem :=
  s.toList.map RItem.lit

/-- The `temp_patterns` list: each Python `(persian_regex, english_template)`
pair becomes (item sequence, capture-substitution template). -/
def tempPatterns : List (List RItem × (List String → String)) :=
  [(litOf "کولر را روی " ++ [.digitsGroup] ++ litOf " درجه تنظیم کن",
    fun caps => "set AC to " ++ caps.getD 0 "" ++ " degrees"),
   (litOf "کولر " ++ [.anyGroup] ++ litOf " را روی " ++ [.digitsGroup] ++ litOf " درجه تنظیم کن",
    fun caps => "set " ++ caps.getD 0 "" ++ " AC to " ++ caps.getD 1 "" ++ " degrees"),
   (litOf "دما را روی " ++ [.digitsGroup] ++ litOf " تنظیم کن",
    fun caps => "set temperature to " ++ caps.getD 0 "")]

/-- The `brightness_patterns` list. -/
def brightnessPatterns : List (List RItem × (List String → String)) :=
  [(litOf "چراغ را روی " ++ [.digitsGroup] ++ litOf " درصد روشنی تنظیم کن",
    fun caps => "set lamp to " ++ caps.getD 0 "" ++ "% brightness"),
   (litOf "چراغ " ++ [.anyGroup] ++ litOf " را روی " ++ [.digitsGroup] ++ litOf " درصد تنظیم کن",
    fun caps => "set " ++ caps.getD 0 "" ++ " lamp to " ++ caps.getD 1 "" ++ "% brightness"),
   (litOf "روشنی چراغ را " ++ [.digitsGroup] ++ litOf " درصد کن",
    fun caps => "set lamp brightness to " ++ caps.getD 0 "" ++ "%")]

/-- The per-pattern loop `for persian_pattern, english_pattern in ...:` —
first pattern whose `re.search` succeeds is substituted. -/
def applyPatterns : List (List RItem × (List String → String)) → String → Option String
  | [], _ => none
  | (p, t) :: ps, s =>
    if searchRE p s.toList then some (subRE p t s.toList) else applyPatterns ps s

/-- `LLMService.translate_text(text, "english")`: one LLM call whose content
is stripped; any exception (including `None` content) degrades to returning
the input unchanged.  The call itself is the stubbed collaborator. -/
def translateText (llmCall : String → Except String String) (text : String) : String :=
  match llmCall text with
  | .ok s => pyStrip s
  | .error _ => text

/-- `PersianService.translate_to_english`, instrumented with the number of
LLM translation calls issued (second component): non-Persian text passes
through, then digit conversion, then the quick-pattern dictionary, then the
temperature regexes (with location-word substitutions), then the brightness
regexes, and only then the LLM fallback on the original text. -/
def translateToEnglish (llmCall : String → Except String String) (ptext : String) :
    String × Nat :=
  if !(isPersian ptext) then (ptext, 0)
  else
    let translated := convertDigits ptext
    let textLower := pyStrip (pyLower translated)
    match quickPatterns.find? (fun p => containsSubstr p.1 textLower) with
    | some p => (p.2, 0)
    | none =>
      match applyPatterns tempPatterns textLower with
      | some result => (pyReplace (pyReplace result "اتاق یک" "room 1") "آشپزخانه" "kitchen", 0)
      | none =>
        match applyPatterns brightnessPatterns textLower with
        | some result => (pyReplace (pyReplace result "آشپزخانه" "kitchen") "حمام" "bathroom", 0)
        | none => (translateText llmCall ptext, 1)

/-! ## Derived notions and helper lemmas -/

/-- The actions of `_execute_device_action` that are type-specific mutations
(everything except the universal on/off/toggle), paired with the device
actually exposing the corresponding setter (`hasattr`). -/
def typeSpecificAction (d : Device) (act : String) : Bool :=
  (isLampDev d && (act == "brightness" || act == "color"))
    || (isAcDev d && (act == "temperature" || act == "mode" || act == "fan_speed"))
    || (isTvDev d && (act == "channel" || act == "volume" || act == "input"))

/-- An error result string: starts with the "❌" marker, or with this
repository's mojibake variant "âŒ" used by the AC class. -/
def errMarked (s : String) : Bool :=
  startsList "❌".toList s.toList || startsList "âŒ".toList s.toList

theorem startsList_append (pat a b : List Char) (h : startsList pat a = true) :
    startsList pat (a ++ b) = true := by
  induction pat generalizing a with
  | nil => simp [startsList]
  | cons x xs ih =>
    cases a with
    | nil => simp [startsList] at h
    | cons c cs =>
      simp only [startsList, Bool.and_eq_true] at h ⊢
      exact ⟨h.1, ih cs h.2⟩

theorem errMarked_append (p s : String) (h : errMarked p = true) :
    errMarked (p ++ s) = true := by
  simp only [errMarked, Bool.or_eq_true] at h ⊢
  have hdata : (p ++ s).toList = p.toList ++ s.toList := by
    simp [String.toList, String.data_append]
  rcases h with h | h
  · exact Or.inl (hdata ▸ startsList_append _ _ _ h)
  · exact Or.inr (hdata ▸ startsList_append _ _ _ h)

theorem validateResponse_ne_empty (s : String) : validateResponse s ≠ "" := by
  unfold validateResponse
  by_cases h1 : s == ""
  · simp [h1]
  · by_cases h2 : pyStrip s == "" <;> simp_all

/-! ## Claim theorems -/

/-- A lamp that is online and powered on (for witnesses). -/
def onLamp : Device :=
  { mkLamp "Kitchen" with power := true }

/-- An AC that is online and powered on (for witnesses). -/
def onAc : Device :=
  { mkAc "Kitchen" with power := true }

/-- A TV that is online and powered on (for witnesses). -/
def onTv : Device :=
  { mkTv "Living Room" with power := true }

/-- C2: for every online, powered-on device and every integer input, the
numeric mutating actions clamp the stored value to the device-specific
bounds and never store an out-of-range value: lamp brightness to [0,100]
with an input of exactly 0 additionally forcing power off; AC temperature to
[16,30]; TV channel to [1,999]; TV volume to [0,100]. -/
theorem C2_numeric_actions_clamp :
    (∀ (d : Device) (b : Int) (c : String) (lvl : Int) (now : Nat),
      d.isOnline = true → d.power = true → d.dstate = .lamp b c →
        (setBrightness d lvl now).1.dstate = .lamp (max 0 (min 100 lvl)) c ∧
        0 ≤ max 0 (min 100 lvl) ∧ max 0 (min 100 lvl) ≤ 100 ∧
        (lvl = 0 → (setBrightness d lvl now).1.power = false)) ∧
    (∀ (d : Device) (t : Int) (m f : String) (v : Int) (now : Nat),
      d.isOnline = true → d.power = true → d.dstate = .ac t m f →
        (setTemperature d v now).1.dstate = .ac (max 16 (min 30 v)) m f ∧
        16 ≤ max 16 (min 30 v) ∧ max 16 (min 30 v) ≤ 30) ∧
    (∀ (d : Device) (ch vol : Int) (inp : String) (v : Int) (now : Nat),
      d.isOnline = true → d.power = true → d.dstate = .tv ch vol inp →
        (setChannel d v now).1.dstate = .tv (max 1 (min 999 v)) vol inp ∧
        1 ≤ max 1 (min 999 v) ∧ max 1 (min 999 v) ≤ 999 ∧
        (setVolume d v now).1.dstate = .tv ch (max 0 (min 100 v)) inp ∧
        0 ≤ max 0 (min 100 v) ∧ max 0 (min 100 v) ≤ 100) := by
  refine ⟨?_, ?_, ?_⟩
  · intro d b c lvl now h1 h2 h3
    by_cases hz : max 0 (min 100 lvl) = 0 <;>
      simp [setBrightness, h1, h2, h3, hz] <;> omega
  · intro d t m f v now h1 h2 h3
    simp [setTemperature, h1, h2, h3, MIN_TEMPERATURE, MAX_TEMPERATURE]
    try omega
  · intro d ch vol inp v now h1 h2 h3
    simp [setChannel, setVolume, h1, h2, h3, MIN_CHANNEL, MAX_CHANNEL, MIN_VOLUME, MAX_VOLUME]
    try omega

/-- Witness for C2 at concrete devices and inputs (including the spec's
35 → 30 and 5 → 16 AC temperatures and the brightness-0 power-off). -/
theorem C2_numeric_actions_clamp_witness :
    (setBrightness onLamp 150 1).1.dstate = .lamp (max 0 (min 100 (150 : Int))) "white" ∧
    (setTemperature onAc 35 1).1.dstate = .ac (max 16 (min 30 (35 : Int))) "cool" "medium" ∧
    (setTemperature onAc 5 1).1.dstate = .ac (max 16 (min 30 (5 : Int))) "cool" "medium" ∧
    (setChannel onTv 1500 1).1.dstate = .tv (max 1 (min 999 (1500 : Int))) 50 "hdmi1" ∧
    (setVolume onTv (-3) 1).1.dstate = .tv 1 (max 0 (min 100 (-3 : Int))) "hdmi1" ∧
    (setBrightness onLamp 0 1).1.power = false :=
  ⟨(C2_numeric_actions_clamp.1 onLamp 100 "white" 150 1 rfl rfl rfl).1,
   (C2_numeric_actions_clamp.2.1 onAc 22 "cool" "medium" 35 1 rfl rfl rfl).1,
   (C2_numeric_actions_clamp.2.1 onAc 22 "cool" "medium" 5 1 rfl rfl rfl).1,
   (C2_numeric_actions_clamp.2.2 onTv 1 50 "hdmi1" 1500 1 rfl rfl rfl).1,
   (C2_numeric_actions_clamp.2.2 onTv 1 50 "hdmi1" (-3) 1 rfl rfl rfl).2.2.2.1,
   (C2_numeric_actions_clamp.1 onLamp 100 "white" 0 1 rfl rfl rfl).2.2.2 rfl⟩

/-- A powered-on kitchen lamp whose `last_updated` is 0, for exhibiting the
C3 divergence. -/
def c3Lamp : Device :=
  { name := "Kitchen Lamp", location := "Kitchen", deviceType := "lamp",
    power := true, dstate := .lamp 50 "white", lastUpdated := 0, isOnline := true }

/-- C3 (failing input): `set_brightness(0)` on a powered-on online lamp is a
successful mutation - it stores brightness 0, forces power off and returns
the non-error "dimmed to 0% (turned off)" message - yet `last_updated`
keeps its old value 0 instead of the mutation time 7, because the
brightness-0 early return in `SmartLamp.set_brightness` skips the
`self.last_updated = datetime.now()` assignment.  Any other successful
brightness mutation does update the timestamp. -/
theorem C3_brightness_zero_skips_timestamp :
    (setBrightness c3Lamp 0 7).2 = "🌙 Kitchen Lamp dimmed to 0% (turned off)" ∧
    (setBrightness c3Lamp 0 7).1.power = false ∧
    (setBrightness c3Lamp 0 7).1.dstate = .lamp 0 "white" ∧
    (setBrightness c3Lamp 0 7).1.lastUpdated = 0 ∧
    (setBrightness c3Lamp 40 7).1.lastUpdated = 7 := by
  refine ⟨?_, ?_, ?_, ?_, ?_⟩ <;> decide

/-- C5: `control("all_devices", a)` with `a ≠ "off"` returns the
unsupported-action error string and leaves every device in the registry
unchanged; `control("all_devices", "off")` applies `turn_off` to every
device in the registry, so every online device ends powered off. -/
theorem C5_all_devices_only_off :
    (∀ (reg : Registry) (act : String) (loc v : Option String) (now : Nat), act ≠ "off" →
      controlDevice reg "all_devices" act loc v now
        = ("❌ Only 'off' action is supported for all devices", reg)) ∧
    (∀ (reg : Registry) (loc v : Option String) (now : Nat),
      (controlDevice reg "all_devices" "off" loc v now).2
          = reg.map (fun p => (p.1, (turnOff p.2 now).1)) ∧
      ∀ p ∈ (controlDevice reg "all_devices" "off" loc v now).2,
        p.2.isOnline = true → p.2.power = false) := by
  constructor
  · intro reg act loc v now h
    have hb : (act == "off") = false := by simp [h]
    simp [controlDevice, controlAllDevices, hb]
    exact fun hc => absurd hc h
  · intro reg loc v now
    have he : (controlDevice reg "all_devices" "off" loc v now).2
        = reg.map (fun p => (p.1, (turnOff p.2 now).1)) := by
      simp [controlDevice, controlAllDevices]
    refine ⟨he, ?_⟩
    intro p hp hon
    rw [he, List.mem_map] at hp
    obtain ⟨q, hq, rfl⟩ := hp
    by_cases ho : q.2.isOnline
    · simp [turnOff, ho]
    · simp only [Bool.not_eq_true] at ho
      simp [turnOff, ho] at hon

theorem setBrightness_powerless (d : Device) (lvl : Int) (now : Nat)
    (hoff : d.isOnline = false ∨ d.power = false) :
    (setBrightness d lvl now).1 = d ∧ errMarked (setBrightness d lvl now).2 = true := by
  rcases hoff with ho | hp
  · simp [setBrightness, ho]
    repeat apply errMarked_append
    decide
  · by_cases ho : d.isOnline
    · simp [setBrightness, ho, hp]
      repeat apply errMarked_append
      decide
    · simp only [Bool.not_eq_true] at ho
      simp [setBrightness, ho]
      repeat apply errMarked_append
      decide

theorem setColor_powerless (d : Device) (c : String) (now : Nat)
    (hoff : d.isOnline = false ∨ d.power = false) :
    (setColor d c now).1 = d ∧ errMarked (setColor d c now).2 = true := by
  rcases hoff with ho | hp
  · simp [setColor, ho]
    repeat apply errMarked_append
    decide
  · by_cases ho : d.isOnline
    · simp [setColor, ho, hp]
      repeat apply errMarked_append
      decide
    · simp only [Bool.not_eq_true] at ho
      simp [setColor, ho]
      repeat apply errMarked_append
      decide

theorem setTemperature_powerless (d : Device) (t : Int) (now : Nat)
    (hoff : d.isOnline = false ∨ d.power = false) :
    (setTemperature d t now).1 = d ∧ errMarked (setTemperature d t now).2 = true := by
  rcases hoff with ho | hp
  · simp [setTemperature, ho]
    repeat apply errMarked_append
    decide
  · by_cases ho : d.isOnline
    · simp [setTemperature, ho, hp]
      repeat apply errMarked_append
      decide
    · simp only [Bool.not_eq_true] at ho
      simp [setTemperature, ho]
      repeat apply errMarked_append
      decide

theorem setMode_powerless (d : Device) (m : String) (now : Nat)
    (hoff : d.isOnline = false ∨ d.power = false) :
    (setMode d m now).1 = d ∧ errMarked (setMode d m now).2 = true := by
  rcases hoff with ho | hp
  · simp [setMode, ho]
    repeat apply errMarked_append
    decide
  · by_cases ho : d.isOnline
    · simp [setMode, ho, hp]
      repeat apply errMarked_append
      decide
    · simp only [Bool.not_eq_true] at ho
      simp [setMode, ho]
      repeat apply errMarked_append
      decide

theorem setFanSpeed_powerless (d : Device) (s : String) (now : Nat)
    (hoff : d.isOnline = false ∨ d.power = false) :
    (setFanSpeed d s now).1 = d ∧ errMarked (setFanSpeed d s now).2 = true := by
  rcases hoff with ho | hp
  · simp [setFanSpeed, ho]
    repeat apply errMarked_append
    decide
  · by_cases ho : d.isOnline
    · simp [setFanSpeed, ho, hp]
      repeat apply errMarked_append
      decide
    · simp only [Bool.not_eq_true] at ho
      simp [setFanSpeed, ho]
      repeat apply errMarked_append
      decide

theorem setChannel_powerless (d : Device) (ch : Int) (now : Nat)
    (hoff : d.isOnline = false ∨ d.power = false) :
    (setChannel d ch now).1 = d ∧ errMarked (setChannel d ch now).2 = true := by
  rcases hoff with ho | hp
  · simp [setChannel, ho]
    repeat apply errMarked_append
    decide
  · by_cases ho : d.isOnline
    · simp [setChannel, ho, hp]
      repeat apply errMarked_append
      decide
    · simp only [Bool.not_eq_true] at ho
      simp [setChannel, ho]
      repeat apply errMarked_append
      decide

theorem setVolume_powerless (d : Device) (v : Int) (now : Nat)
    (hoff : d.isOnline = false ∨ d.power = false) :
    (setVolume d v now).1 = d ∧ errMarked (setVolume d v now).2 = true := by
  rcases hoff with ho | hp
  · simp [setVolume, ho]
    repeat apply errMarked_append
    decide
  · by_cases ho : d.isOnline
    · simp [setVolume, ho, hp]
      repeat apply errMarked_append
      decide
    · simp only [Bool.not_eq_true] at ho
      simp [setVolume, ho]
      repeat apply errMarked_append
      decide

theorem setInputSource_powerless (d : Device) (src : String) (now : Nat)
    (hoff : d.isOnline = false ∨ d.power = false) :
    (setInputSource d src now).1 = d ∧ errMarked (setInputSource d src now).2 = true := by
  rcases hoff with ho | hp
  · simp [setInputSource, ho]
    repeat apply errMarked_append
    decide
  · by_cases ho : d.isOnline
    · simp [setInputSource, ho, hp]
      repeat apply errMarked_append
      decide
    · simp only [Bool.not_eq_true] at ho
      simp [setInputSource, ho]
      repeat apply errMarked_append
      decide

theorem execDeviceAction_powerless (d : Device) (act : String) (v : Option String) (now : Nat)
    (hts : typeSpecificAction d act = true)
    (hoff : d.isOnline = false ∨ d.power = false) :
    (executeDeviceAction d act v now).1 = d ∧
    errMarked (executeDeviceAction d act v now).2 = true := by
  have hcases : (isLampDev d = true ∧ (act = "brightness" ∨ act = "color"))
      ∨ (isAcDev d = true ∧ (act = "temperature" ∨ act = "mode" ∨ act = "fan_speed"))
      ∨ (isTvDev d = true ∧ (act = "channel" ∨ act = "volume" ∨ act = "input")) := by
    cases hds : d.dstate <;>
      simp [typeSpecificAction, isLampDev, isAcDev, isTvDev, hds] at hts <;>
      simp [isLampDev, isAcDev, isTvDev, hds, hts] <;> tauto
  clear hts
  rcases hcases with ⟨hk, rfl | rfl⟩ | ⟨hk, rfl | rfl | rfl⟩ | ⟨hk, rfl | rfl | rfl⟩
  · cases htv : truthyStr v with
    | none =>
      simp [executeDeviceAction, hk, htv]
      decide
    | some v' =>
      cases hpi : pyInt? v' with
      | none =>
        simp [executeDeviceAction, hk, htv, hpi]
        repeat apply errMarked_append
        decide
      | some n =>
        simpa [executeDeviceAction, hk, htv, hpi] using setBrightness_powerless d n now hoff
  · cases htv : truthyStr v with
    | none =>
      simp [executeDeviceAction, hk, htv]
      decide
    | some v' =>
      simpa [executeDeviceAction, hk, htv] using setColor_powerless d v' now hoff
  · cases htv : truthyStr v with
    | none =>
      simp [executeDeviceAction, hk, htv]
      decide
    | some v' =>
      cases hpi : pyInt? v' with
      | none =>
        simp [executeDeviceAction, hk, htv, hpi]
        repeat apply errMarked_append
        decide
      | some n =>
        simpa [executeDeviceAction, hk, htv, hpi] using setTemperature_powerless d n now hoff
  · cases htv : truthyStr v with
    | none =>
      simp [executeDeviceAction, hk, htv]
      decide
    | some v' =>
      simpa [executeDeviceAction, hk, htv] using setMode_powerless d v' now hoff
  · cases htv : truthyStr v with
    | none =>
      simp [executeDeviceAction, hk, htv]
      decide
    | some v' =>
      simpa [executeDeviceAction, hk, htv] using setFanSpeed_powerless d v' now hoff
  · cases htv : truthyStr v with
    | none =>
      simp [executeDeviceAction, hk, htv]
      decide
    | some v' =>
      cases hpi : pyInt? v' with
      | none =>
        simp [executeDeviceAction, hk, htv, hpi]
        repeat apply errMarked_append
        decide
      | some n =>
        simpa [executeDeviceAction, hk, htv, hpi] using setChannel_powerless d n now hoff
  · cases htv : truthyStr v with
    | none =>
      simp [executeDeviceAction, hk, htv]
      decide
    | some v' =>
      cases hpi : pyInt? v' with
      | none =>
        simp [executeDeviceAction, hk, htv, hpi]
        repeat apply errMarked_append
        decide
      | some n =>
        simpa [executeDeviceAction, hk, htv, hpi] using setVolume_powerless d n now hoff
  · cases htv : truthyStr v with
    | none =>
      simp [executeDeviceAction, hk, htv]
      decide
    | some v' =>
      simpa [executeDeviceAction, hk, htv] using setInputSource_powerless d v' now hoff

/-- First step of the C4 scenario: setting the kitchen AC temperature while
it is still powered off. -/
def c4Step1 : String × Registry :=
  controlDevice initialRegistry "ac" "temperature" (some "kitchen") (some "22") 1

/-- Second step: powering the kitchen AC on. -/
def c4Step2 : String × Registry :=
  controlDevice c4Step1.2 "ac" "on" (some "kitchen") none 2

/-- Third step: the same temperature command, now succeeding. -/
def c4Step3 : String × Registry :=
  controlDevice c4Step2.2 "ac" "temperature" (some "kitchen") (some "22") 3

/-- C4: `control("ac","temperature",location="kitchen",value="22")` on the
powered-off kitchen AC returns an error string containing "off" and leaves
the registry unchanged; after `control("ac","on",location="kitchen")` the
same call succeeds, stores 22 and the device status reflects "22".  In
general, every type-specific mutating action on a powered-off or offline
device leaves the device unchanged and returns an error-marked string
instead of mutating or raising. -/
theorem C4_powered_off_validation :
    (containsSubstr "off" c4Step1.1 = true ∧
     c4Step1.2 = initialRegistry ∧
     containsSubstr "temperature set to 22" c4Step3.1 = true ∧
     (lookupDevice c4Step3.2 "kitchen_ac").map Device.dstate
        = some (.ac 22 "cool" "medium") ∧
     containsSubstr "22" (getStatus c4Step3.2 "kitchen_ac") = true) ∧
    (∀ (d : Device) (act : String) (v : Option String) (now : Nat),
      typeSpecificAction d act = true →
      d.isOnline = false ∨ d.power = false →
        (executeDeviceAction d act v now).1 = d ∧
        errMarked (executeDeviceAction d act v now).2 = true) := by
  constructor
  · refine ⟨?_, ?_, ?_, ?_, ?_⟩ <;> decide
  · exact fun d act v now hts hoff => execDeviceAction_powerless d act v now hts hoff

/-- Witness for C4's universal part: the powered-off kitchen AC rejects a
temperature command without mutating. -/
theorem C4_powered_off_validation_witness :
    (executeDeviceAction (mkAc "Kitchen") "temperature" (some "22") 5).1 = mkAc "Kitchen" ∧
    errMarked (executeDeviceAction (mkAc "Kitchen") "temperature" (some "22") 5).2 = true :=
  C4_powered_off_validation.2 (mkAc "Kitchen") "temperature" (some "22") 5 (by decide)
    (Or.inr (by decide))

/-- Witness for C5 at a concrete non-"off" action on the configured
registry. -/
theorem C5_all_devices_only_off_witness :
    controlDevice initialRegistry "all_devices" "on" none none 3
      = ("❌ Only 'off' action is supported for all devices", initialRegistry) ∧
    (controlDevice initialRegistry "all_devices" "off" none none 3).2
      = initialRegistry.map (fun p => (p.1, (turnOff p.2 3).1)) :=
  ⟨C5_all_devices_only_off.1 initialRegistry "on" none none 3 (by decide),
   (C5_all_devices_only_off.2 initialRegistry none none 3).1⟩

theorem persianCounts_aux (l : List Char) (a b : Nat) :
    l.foldl
      (fun acc c =>
        if pyIsAlpha c then
          (acc.1 + (if inPersianRanges c then 1 else 0), acc.2 + 1)
        else acc)
      (a, b)
      = (a + (l.filter (fun c => pyIsAlpha c && inPersianRanges c)).length,
         b + (l.filter pyIsAlpha).length) := by
  induction l generalizing a b with
  | nil => simp
  | cons c cs ih =>
    by_cases h1 : pyIsAlpha c = true
    · by_cases h2 : inPersianRanges c = true <;>
        simp [h1, h2, List.filter_cons, ih] <;> omega
    · simp only [Bool.not_eq_true] at h1
      simp [h1, List.filter_cons, ih]

theorem persianCounts_eq (l : List Char) :
    persianCounts l
      = ((l.filter (fun c => pyIsAlpha c && inPersianRanges c)).length,
         (l.filter pyIsAlpha).length) := by
  simpa using persianCounts_aux l 0 0

theorem isPersian_eq_spec (s : String) : isPersian s = isPersianSpec s := by
  by_cases hs : s = ""
  · subst hs
    decide
  · have hb : (s == "") = false := by simp [hs]
    by_cases ht : (pyStrip s == "") = true
    · simp [isPersian, isPersianSpec, hb, ht]
    · simp only [Bool.not_eq_true] at ht
      have hff : (s.data.filter pyIsAlpha).filter inPersianRanges
          = s.data.filter (fun c => pyIsAlpha c && inPersianRanges c) := by
        rw [List.filter_filter]
        exact List.filter_congr (fun a _ => Bool.and_comm _ _)
      have hle : (s.data.filter (fun c => pyIsAlpha c && inPersianRanges c)).length
          ≤ (s.data.filter pyIsAlpha).length := by
        rw [← hff]
        exact List.length_filter_le _ _
      simp only [isPersian, isPersianSpec, hb, ht, persianCounts_eq, String.toList, hff,
        Bool.false_or, Bool.or_false, if_false]
      by_cases hgt : 3 * (s.data.filter pyIsAlpha).length
          < 10 * (s.data.filter (fun c => pyIsAlpha c && inPersianRanges c)).length
      · have htpos : 0 < (s.data.filter pyIsAlpha).length := by omega
        simp [hgt, htpos]
      · simp [hgt]

/-- C9: `is_persian` is total on strings, agrees everywhere with the spec's
description (Persian-script characters exceeding 30% of the alphabetic
characters, or a fixed Persian keyword in the lowercased text, with
empty/whitespace-only input never Persian), and has the spec's concrete
values on "سلام", "hello" and "". -/
theorem C9_is_persian_detector :
    (∀ s, isPersian s = isPersianSpec s) ∧
    isPersian "سلام" = true ∧
    isPersian "hello" = false ∧
    isPersian "" = false ∧
    (∀ s, pyStrip s = "" → isPersian s = false) := by
  refine ⟨isPersian_eq_spec, by decide, by decide, by decide, ?_⟩
  intro s h
  by_cases hs : (s == "") = true <;> simp [isPersian, hs, h]

/-- Witness for C9's whitespace clause at the three-space string. -/
theorem C9_is_persian_detector_witness :
    pyStrip "   " = "" ∧ isPersian "   " = false :=
  ⟨by decide, C9_is_persian_detector.2.2.2.2 "   " (by decide)⟩

/-- C8: the normalizer translates the exact phrase
"چراغ آشپزخانه را روشن کن" to "turn on the kitchen lamp" through the
fast-path dictionary with zero LLM translation calls, for every LLM
translation stub; more generally non-Persian text passes through untouched
without an LLM call, and whenever the digit-converted, lowercased, stripped
text matches a dictionary entry, that entry's translation is returned with
zero LLM calls (digit conversion before lookup, dictionary before the regex
and LLM fallbacks). -/
theorem C8_normalizer_fast_path :
    (∀ tr, translateToEnglish tr "چراغ آشپزخانه را روشن کن" = ("turn on the kitchen lamp", 0)) ∧
    (∀ tr t, isPersian t = false → translateToEnglish tr t = (t, 0)) ∧
    (∀ tr t e, isPersian t = true →
      quickPatterns.find? (fun p => containsSubstr p.1 (pyStrip (pyLower (convertDigits t)))) = some e →
      translateToEnglish tr t = (e.2, 0)) := by
  refine ⟨?_, ?_, ?_⟩
  · intro tr
    rfl
  · intro tr t h
    simp [translateToEnglish, h]
  · intro tr t e h1 h2
    simp [translateToEnglish, h1, h2]

/-- Witness for C8: the English word "hello" passes through, and the fast
path itself fires on the Persian phrase. -/
theorem C8_normalizer_fast_path_witness :
    isPersian "hello" = false ∧
    translateToEnglish (fun _ => .error "stub") "hello" = ("hello", 0) ∧
    quickPatterns.find?
        (fun p => containsSubstr p.1
          (pyStrip (pyLower (convertDigits "چراغ آشپزخانه را روشن کن"))))
      = some ("چراغ آشپزخانه را روشن کن", "turn on the kitchen lamp") ∧
    translateToEnglish (fun _ => .error "stub") "چراغ آشپزخانه را روشن کن"
      = ("turn on the kitchen lamp", 0) :=
  ⟨by decide,
   C8_normalizer_fast_path.2.1 (fun _ => .error "stub") "hello" (by decide),
   by decide,
   C8_normalizer_fast_path.2.2 (fun _ => .error "stub") "چراغ آشپزخانه را روشن کن"
     ("چراغ آشپزخانه را روشن کن", "turn on the kitchen lamp") (by decide) (by decide)⟩

theorem strAppend_ne_empty (s t : String) (h : s ≠ "") : (s ++ t) ≠ "" := by
  intro he
  apply h
  have hd := congrArg String.data he
  have hemp : ("" : String).data = [] := rfl
  rw [String.data_append, hemp] at hd
  rcases List.append_eq_nil.mp hd with ⟨h1, _⟩
  cases s
  simp_all

/-- C1: whenever the first LLM response's text content contains the full
inline function-call marker pattern, `process` runs the text-parse
workaround: it issues exactly one LLM call (no follow-up), executes the
extracted function exactly once when the argument blob JSON-parses, and when
the blob fails to parse it executes nothing and returns the graceful
could-not-parse-parameters message instead of raising. -/
theorem C1_inline_call_executes_once (co : Collab) (reg : Registry) (hist : List Turn)
    (cmd : String) (now : Nat) (resp : LLMResponse) (c nm blob : String)
    (h0 : co.llm 0 (buildMessages hist cmd) = .ok resp)
    (h1 : resp.content = some c)
    (h2 : (c != "" && containsSubstr "<function=" c) = true)
    (h3 : findCall c.toList = some (nm, blob)) :
    (process co reg hist cmd now).llmCalls = 1 ∧
    (∀ args, co.jsonParse blob = .ok args →
      (process co reg hist cmd now).executions = [(pyStrip nm, args)]) ∧
    (∀ e, co.jsonParse blob = .error e →
      (process co reg hist cmd now).executions = [] ∧
      (process co reg hist cmd now).reply
        = "I understood your request but couldn't parse the parameters properly.") := by
  have hinner : processInner co reg hist cmd now
      = ⟨.ok (parseAndExecuteFromText co reg c now).1,
         (parseAndExecuteFromText co reg c now).2.1, 1,
         (parseAndExecuteFromText co reg c now).2.2⟩ := by
    simp [processInner, h0, h1, h2]
  have h3' : findCall c.data = some (nm, blob) := h3
  refine ⟨?_, ?_, ?_⟩
  · simp [process, hinner]
  · intro args ha
    simp [process, hinner, parseAndExecuteFromText, h3', ha]
  · intro e he
    have hexec : (process co reg hist cmd now).executions = [] := by
      simp [process, hinner, parseAndExecuteFromText, h3', he]
    have hreply : (process co reg hist cmd now).reply
        = validateResponse
            "I understood your request but couldn't parse the parameters properly." := by
      simp [process, hinner, parseAndExecuteFromText, h3', he]
    refine ⟨hexec, ?_⟩
    rw [hreply]
    decide

/-- The inline-marker content of the spec's stubbed-response example. -/
def c1Content : String :=
  "<function=control_device\x7b\"device_type\":\"lamp\",\"action\":\"on\",\"location\":\"kitchen\"\x7d</function>"

/-- The argument blob the pattern extracts from `c1Content`. -/
def c1Blob : String :=
  "\x7b\"device_type\":\"lamp\",\"action\":\"on\",\"location\":\"kitchen\"\x7d"

/-- The parsed arguments of `c1Blob`. -/
def c1Args : Args :=
  [("device_type", "lamp"), ("action", "on"), ("location", "kitchen")]

/-- Stub returning the spec's inline-marker content on the first call and
failing loudly if a follow-up call were ever issued. -/
def c1Collab : Collab :=
  { llm := fun i _ =>
      if i = 0 then .ok { content := some c1Content, functionCall := none }
      else .error "unexpected second call",
    jsonParse := fun s => if s == c1Blob then .ok c1Args else .error "Expecting value" }

/-- Witness for C1 at the spec's stubbed response: one LLM call, one
execution of `control_device`. -/
theorem C1_inline_call_executes_once_witness :
    (process c1Collab initialRegistry [] "turn on the kitchen lamp" 0).llmCalls = 1 ∧
    (process c1Collab initialRegistry [] "turn on the kitchen lamp" 0).executions
      = [(pyStrip "control_device", c1Args)] :=
  ⟨(C1_inline_call_executes_once c1Collab initialRegistry [] "turn on the kitchen lamp" 0
      { content := some c1Content, functionCall := none } c1Content "control_device" c1Blob
      rfl rfl (by decide) (by decide)).1,
   (C1_inline_call_executes_once c1Collab initialRegistry [] "turn on the kitchen lamp" 0
      { content := some c1Content, functionCall := none } c1Content "control_device" c1Blob
      rfl rfl (by decide) (by decide)).2.1 c1Args rfl⟩

/-- C7: `process` never returns an empty reply - empty or whitespace-only
final responses are replaced by the fixed fallback sentences - and when the
processing body raises, the reply is exactly the error-prefixed string
carrying the exception text. -/
theorem C7_reply_nonempty (co : Collab) (reg : Registry) (hist : List Turn) (cmd : String)
    (now : Nat) :
    (process co reg hist cmd now).reply ≠ "" ∧
    (∀ e, (processInner co reg hist cmd now).res = .error e →
      (process co reg hist cmd now).reply = "❌ Error processing command: " ++ e) := by
  constructor
  · cases hres : (processInner co reg hist cmd now).res with
    | ok raw =>
      have : (process co reg hist cmd now).reply = validateResponse raw := by
        simp [process, hres]
      rw [this]
      exact validateResponse_ne_empty raw
    | error e =>
      have : (process co reg hist cmd now).reply = "❌ Error processing command: " ++ e := by
        simp [process, hres]
      rw [this]
      exact strAppend_ne_empty _ _ (by decide)
  · intro e he
    simp [process, he]

/-- Stub whose LLM call always raises. -/
def throwCollab : Collab :=
  { llm := fun _ _ => .error "boom", jsonParse := fun _ => .error "unused" }

/-- Witness for C7: a raising stub yields the error-prefixed, nonempty
reply. -/
theorem C7_reply_nonempty_witness :
    (process throwCollab initialRegistry [] "hi" 0).reply = "❌ Error processing command: boom" ∧
    (process throwCollab initialRegistry [] "hi" 0).reply ≠ "" :=
  ⟨(C7_reply_nonempty throwCollab initialRegistry [] "hi" 0).2 "boom" rfl,
   (C7_reply_nonempty throwCollab initialRegistry [] "hi" 0).1⟩

/-- C10: when the processing body raises, the error reply is returned but
the conversation history is left exactly as it was - error replies are never
appended; a successfully produced (validated) reply is appended and the
history trimmed. -/
theorem C10_error_reply_not_recorded (co : Collab) (reg : Registry) (hist : List Turn)
    (cmd : String) (now : Nat) :
    (∀ e, (processInner co reg hist cmd now).res = .error e →
      (process co reg hist cmd now).history = hist) ∧
    (∀ raw, (processInner co reg hist cmd now).res = .ok raw →
      (process co reg hist cmd now).history
        = trimHistory (hist ++ [⟨cmd, validateResponse raw⟩])) := by
  constructor <;> intro x hx <;> simp [process, hx]

/-- Witness for C10: the raising stub leaves an empty history empty. -/
theorem C10_error_reply_not_recorded_witness :
    (process throwCollab initialRegistry [] "hi" 0).history = ([] : List Turn) :=
  (C10_error_reply_not_recorded throwCollab initialRegistry [] "hi" 0).1 "boom" rfl

theorem stubOk_step (reg : Registry) (hist : List Turn) (c : String) :
    process stubOkCollab reg hist c 0
      = ⟨"ok", reg, trimHistory (hist ++ [⟨c, "ok"⟩]), 1, []⟩ := rfl

theorem trimHistory_eq_drop (l : List Turn) : trimHistory l = l.drop (l.length - 20) := by
  unfold trimHistory
  split
  · rfl
  · next h =>
    have h0 : l.length - 20 = 0 := by omega
    rw [h0, List.drop_zero]

theorem trimHistory_length (l : List Turn) : (trimHistory l).length = min l.length 20 := by
  rw [trimHistory_eq_drop, List.length_drop]
  omega

theorem drop_tail_append (A M : List Turn) :
    (A.drop (A.length - 20) ++ M).drop (min A.length 20 + M.length - 20)
      = (A ++ M).drop (A.length + M.length - 20) := by
  rw [← List.drop_append_of_le_length (Nat.sub_le A.length 20), List.drop_drop]
  congr 1
  omega

theorem processSeq_stubOk (cmds : List String) :
    ∀ (reg : Registry) (hist : List Turn), hist.length ≤ 20 →
      (processSeq stubOkCollab reg hist cmds).2
        = (hist ++ cmds.map (fun c => Turn.mk c "ok")).drop (hist.length + cmds.length - 20) := by
  induction cmds with
  | nil =>
    intro reg hist h
    simp only [processSeq, List.map_nil, List.append_nil, List.length_nil, Nat.add_zero]
    have h0 : hist.length - 20 = 0 := by omega
    rw [h0, List.drop_zero]
  | cons c cs ih =>
    intro reg hist h
    have hlen : (hist ++ [(⟨c, "ok"⟩ : Turn)]).length = hist.length + 1 := by simp
    have htrim : (trimHistory (hist ++ [(⟨c, "ok"⟩ : Turn)])).length ≤ 20 := by
      rw [trimHistory_length]
      omega
    simp only [processSeq, stubOk_step]
    rw [ih _ _ htrim, trimHistory_length, trimHistory_eq_drop]
    have := drop_tail_append (hist ++ [⟨c, "ok"⟩]) (cs.map (fun c => Turn.mk c "ok"))
    simp only [hlen, List.length_map] at this ⊢
    rw [this]
    simp only [List.append_assoc, List.singleton_append, List.map_cons, List.length_map,
      List.length_cons]
    congr 1
    omega

theorem length_msgPairs (l : List Turn) :
    (l.flatMap (fun t =>
      [({ role := "user", content := t.user } : ChatMsg),
       { role := "assistant", content := t.assistant }])).length = 2 * l.length := by
  induction l with
  | nil => simp
  | cons t ts ih =>
    simp [ih]
    omega

theorem buildMessages_length (hist : List Turn) (cmd : String) :
    (buildMessages hist cmd).length = 2 + 2 * min hist.length 6 := by
  unfold buildMessages
  rw [List.length_cons, List.length_append, length_msgPairs]
  simp only [List.length_singleton, lastN, List.length_drop]
  omega

/-- C6 (counterexample): with seven turns stored, the next `process` call
supplies the last SIX TURNS as twelve context messages (fourteen messages
in total with the system prompt and the current command) - not "at most the
last 6 stored messages (3 turns)" as the claim states. -/
theorem C6_context_counterexample :
    (buildMessages (List.replicate 7 ⟨"u", "a"⟩) "hi").length = 14 ∧
    ¬((buildMessages (List.replicate 7 ⟨"u", "a"⟩) "hi").length - 2 ≤ 6) := by
  constructor <;> decide

/-- C6 (amended): Conversation Memory holds at most 20 entries after any
sequence of `process` calls (one call preserves the ≤ 20 bound for every
stub); after 25 sequential calls from an empty history exactly the oldest 5
entries have been evicted (oldest first); and at most the last 6 stored
TURNS - i.e. 12 messages - are supplied as LLM context on the next call. -/
theorem C6_memory_window :
    (∀ (co : Collab) (reg : Registry) (hist : List Turn) (cmd : String) (now : Nat),
      hist.length ≤ 20 → (process co reg hist cmd now).history.length ≤ 20) ∧
    (∀ (reg : Registry) (cmds : List String), cmds.length = 25 →
      (processSeq stubOkCollab reg [] cmds).2
        = (cmds.drop 5).map (fun c => Turn.mk c "ok")) ∧
    (∀ (hist : List Turn) (cmd : String),
      (buildMessages hist cmd).length = 2 + 2 * min hist.length 6 ∧
      (buildMessages hist cmd).length - 2 ≤ 12) := by
  refine ⟨?_, ?_, ?_⟩
  · intro co reg hist cmd now h
    cases hres : (processInner co reg hist cmd now).res with
    | ok raw =>
      have : (process co reg hist cmd now).history
          = trimHistory (hist ++ [⟨cmd, validateResponse raw⟩]) := by
        simp [process, hres]
      rw [this, trimHistory_length]
      omega
    | error e =>
      have : (process co reg hist cmd now).history = hist := by
        simp [process, hres]
      rw [this]
      exact h
  · intro reg cmds h25
    rw [processSeq_stubOk cmds reg [] (by simp)]
    simp [h25, List.map_drop]
  · intro hist cmd
    rw [buildMessages_length]
    omega

/-- Witness for C6: the bound, the 25-call eviction and the context size at
concrete inputs. -/
theorem C6_memory_window_witness :
    (process stubOkCollab initialRegistry [] "hi" 0).history.length ≤ 20 ∧
    (processSeq stubOkCollab initialRegistry [] (List.replicate 25 "hi")).2
      = ((List.replicate 25 "hi").drop 5).map (fun c => Turn.mk c "ok") ∧
    (buildMessages [] "hi").length = 2 + 2 * min (List.length ([] : List Turn)) 6 :=
  ⟨C6_memory_window.1 stubOkCollab initialRegistry [] "hi" 0 (by decide),
   C6_memory_window.2.1 initialRegistry (List.replicate 25 "hi") (by decide),
   (C6_memory_window.2.2 [] "hi").1⟩

end SmartHome
